import Mathlib

/-!
# Verification of the webpage rendering server middleware pipeline

Shallow embedding of `source/page-server/web server.js`
(`start_webpage_rendering_server`): a Koa application composed of two
middlewares — an outer error boundary (metrics, timers, development-mode
stack-trace diagnostics, generic error response) wrapping the isomorphic
rendering middleware (render callback → redirect / status / content, with an
optional application error handler).

External collaborators (the render callback, the stack-trace renderer, the
error handler, the monitoring client and logger) are parameters of the
embedding, with their observable calls recorded in an event trace.  JavaScript
truthiness tests (`if (redirect)`, `if (status)`, `if (response_body)`,
`response_status || 500`, `error.message || 'Internal error'`) are embedded
explicitly: an absent value is `none`, and `some 0` / `some ""` are falsy.
-/

/-- A JavaScript error object as inspected by the pipeline:
`error.status` when `typeof error.status === 'number'` (otherwise `none`),
`error.message` (`""` models an absent or empty message) and `error.stack`
(`""` models an absent stack). -/
structure Err where
  status : Option Nat
  message : String
  stack : String
  deriving DecidableEq, Repr

/-- Result of the render callback: `{ status, content, redirect }`
(destructured at the top of the rendering middleware's `try` block).
An absent field is `none`. -/
structure RenderResult where
  status : Option Nat
  content : String
  redirect : Option String
  deriving DecidableEq, Repr

/-- Result of `render_stack_trace`:
`{ response_status, response_body }`.  An absent field is `none`. -/
structure StackTraceResult where
  response_status : Option Nat
  response_body : Option String
  deriving DecidableEq, Repr

/-- Observable calls made by the pipeline, in order: monitoring calls
(`increment`, `started`-timer start, stop-function call), the HTTP
response-producing actions (`ctx.redirect`, the `ctx.body = content`
assignment of a successful render, and the writing of an error response in
the outer boundary), the invocation of `render_stack_trace`, `console.log`
calls and `options.log.error(error)`. -/
inductive Event where
  | inc : String → Event
  | start : String → Event
  | stop : String → Event
  | redirect : String → Event
  | writeBody : String → Event
  | writeErrorBody : Event
  | stackTraceAttempt : Event
  | consoleLog : String → Event
  | consoleLogError : Err → Event
  | logError : Event
  deriving DecidableEq, Repr

/-- Koa response context, restricted to the fields the pipeline mutates:
`ctx.status`, `ctx.body`, `ctx.message`, `ctx.type`, and the target of a
`ctx.redirect(to)` call.  `none` is the untouched framework default. -/
structure Ctx where
  status : Option Nat
  body : Option String
  message : Option String
  ctype : Option String
  redirectedTo : Option String
  deriving DecidableEq, Repr

/-- Fresh per-request context: nothing set yet. -/
def Ctx.init : Ctx := ⟨none, none, none, none, none⟩

/-- Koa's default respond step for the paths this pipeline takes: if a body
was set it is sent, otherwise the response body is the status message
(Koa sends `ctx.message`, falling back to the status code's text). -/
def Ctx.responseBody (c : Ctx) : Option String :=
  match c.body with
  | some b => some b
  | none => c.message

/-- The configuration consumed by the two middlewares:
`options.catch` (the error handler, modelled by the redirect URL it passes to
the `redirect` function it is given, or the error it throws) and whether
`options.log` is configured.  The error handler receives the error and the
normalized `url` (its `redirect` capability is represented by the returned
URL). -/
structure Options where
  error_handler : Option (Err → String → Except Err String)
  log : Bool

/-- `url.replace(/\?$/, '')` — strips a single trailing `'?'`. -/
def normalize_url (s : String) : String :=
  match s.data.reverse with
  | '?' :: rest => String.mk rest.reverse
  | _ => s

/-- `const development = process.env.NODE_ENV !== 'production'`
(`none` models an unset `NODE_ENV`). -/
def development_mode (node_env : Option String) : Bool :=
  node_env != some "production"

/-- `response_status || 500` — JavaScript `||` on a number:
`undefined` and `0` are falsy. -/
def status_or_500 : Option Nat → Nat
  | some n => if n = 0 then 500 else n
  | none => 500

/-- The isomorphic rendering middleware (`web.use(async (ctx) => ...)`):
increments the per-URL hit counter, then interprets the render callback's
outcome: a truthy `redirect` performs `ctx.redirect` and returns; otherwise a
truthy `status` is copied to `ctx.status` and `ctx.body = content`.  On
rejection the handled-error counter is incremented and either the configured
`error_handler` is invoked with `(error, { url, redirect })`, or the error is
rethrown.  Returns the updated context, the events emitted, and the error
escaping the middleware (if any). -/
def rendering_middleware (opts : Options) (rawUrl : String)
    (renderOutcome : Except Err RenderResult) (ctx : Ctx) :
    Ctx × List Event × Option Err :=
  let url := normalize_url rawUrl
  let hits := [Event.inc ("request.url.hits." ++ url)]
  match renderOutcome with
  | .ok r =>
    match r.redirect with
    | some dest =>
      if dest = "" then
        -- falsy redirect: fall through to status/content handling
        (⟨(if r.status.getD 0 = 0 then ctx.status else r.status),
          some r.content, ctx.message, ctx.ctype, ctx.redirectedTo⟩,
         hits ++ [Event.writeBody r.content], none)
      else
        ({ ctx with redirectedTo := some dest }, hits ++ [Event.redirect dest], none)
    | none =>
      (⟨(if r.status.getD 0 = 0 then ctx.status else r.status),
        some r.content, ctx.message, ctx.ctype, ctx.redirectedTo⟩,
       hits ++ [Event.writeBody r.content], none)
  | .error e =>
    let handled := hits ++ [Event.inc "requests.errors.handled"]
    match opts.error_handler with
    | some handler =>
      match handler e url with
      | .ok dest => ({ ctx with redirectedTo := some dest }, handled ++ [Event.redirect dest], none)
      | .error e2 => (ctx, handled, some e2)
    | none => (ctx, handled, some e)

/-- The fallback error response at the end of the outer `catch` block:
`console.log` the error banner, call `options.log.error(error)` when a logger
is configured, set `ctx.status` to the error's numeric `status` field or 500,
and `ctx.message` to `error.message || 'Internal error'`. -/
def generic_error_response (opts : Options) (error : Err) (ctx : Ctx) :
    Ctx × List Event :=
  ({ ctx with
      status := some (match error.status with | some n => n | none => 500),
      message := some (if error.message = "" then "Internal error" else error.message) },
   [Event.consoleLog "[react-isomorphic-render] Webpage rendering server error"]
     ++ (if opts.log then [Event.logError] else [])
     ++ [Event.writeErrorBody])

/-- The `catch (error)` block of the outer middleware: in development mode,
try `render_stack_trace(error, options.print_error)`; a truthy
`response_body` becomes the response (`ctx.status = response_status || 500`,
`ctx.body = response_body`, `ctx.type = 'html'`) and the block returns; a
thrown diagnostic-renderer error is logged to the console and discarded.
Every other path falls through to the generic error response. -/
def catch_block (development : Bool) (opts : Options)
    (render_stack_trace : Err → Except Err StackTraceResult)
    (error : Err) (ctx : Ctx) : Ctx × List Event :=
  if development then
    match render_stack_trace error with
    | .ok r =>
      match r.response_body with
      | some b =>
        if b = "" then
          -- falsy response_body: fall through
          let (c, evs) := generic_error_response opts error ctx
          (c, Event.stackTraceAttempt :: evs)
        else
          ({ ctx with
              status := some (status_or_500 r.response_status),
              body := some b,
              ctype := some "html" },
           [Event.stackTraceAttempt, Event.writeErrorBody])
      | none =>
        let (c, evs) := generic_error_response opts error ctx
        (c, Event.stackTraceAttempt :: evs)
    | .error e2 =>
      let (c, evs) := generic_error_response opts error ctx
      (c, Event.stackTraceAttempt
            :: Event.consoleLog "(couldn't render error stack trace)"
            :: Event.consoleLogError e2 :: evs)
  else
    let (c, evs) := generic_error_response opts error ctx
    (c, evs)

/-- The outer error-handling middleware (`web.use(async (ctx, next) => ...)`):
increments the request counters, starts the two duration timers, awaits the
downstream middleware, catches any error it throws (incrementing the error
counter and running the `catch` block), and stops both timers in `finally`.
The final `Option Err` is an error escaping the whole middleware (the catch
block is total, so it is always `none`). -/
def error_boundary (development : Bool) (opts : Options)
    (render_stack_trace : Err → Except Err StackTraceResult)
    (rawUrl : String)
    (inner : Ctx → Ctx × List Event × Option Err)
    (ctx : Ctx) : Ctx × List Event × Option Err :=
  let url := normalize_url rawUrl
  let pre := [Event.inc "request.count", Event.inc ("request.url.count." ++ url),
              Event.start "request", Event.start ("request.url.time." ++ url)]
  let fin := [Event.stop "request", Event.stop ("request.url.time." ++ url)]
  match inner ctx with
  | (ctx1, evs, none) => (ctx1, pre ++ evs ++ fin, none)
  | (ctx1, evs, some error) =>
    let (ctx2, evs2) := catch_block development opts render_stack_trace error ctx1
    (ctx2, pre ++ evs ++ (Event.inc "requests.errors" :: evs2) ++ fin, none)

/-- One request through the composed pipeline: the error boundary wrapping the
rendering middleware, on a fresh context.  `renderOutcome` is the settled
outcome of the render callback for this request. -/
def handle (development : Bool) (opts : Options)
    (render_stack_trace : Err → Except Err StackTraceResult)
    (renderOutcome : Except Err RenderResult)
    (rawUrl : String) : Ctx × List Event × Option Err :=
  error_boundary development opts render_stack_trace rawUrl
    (rendering_middleware opts rawUrl renderOutcome) Ctx.init

/-- `start_webpage_rendering_server`: development mode is computed once from
`NODE_ENV`; the per-request behavior is `handle` under that mode. -/
def start_webpage_rendering_server (node_env : Option String) (opts : Options)
    (render_stack_trace : Err → Except Err StackTraceResult)
    (renderOutcome : Except Err RenderResult)
    (rawUrl : String) : Ctx × List Event × Option Err :=
  handle (development_mode node_env) opts render_stack_trace renderOutcome rawUrl

/-- The three response-producing actions of the pipeline. -/
def Event.isResponse : Event → Bool
  | .redirect _ => true
  | .writeBody _ => true
  | .writeErrorBody => true
  | _ => false

/-- Timer events (starting a duration timer / calling its stop function). -/
def Event.isTimer : Event → Bool
  | .start _ => true
  | .stop _ => true
  | _ => false

/-- Number of response-producing actions in a trace. -/
def responseCount (evs : List Event) : Nat :=
  (evs.filter Event.isResponse).length

/-! ## Helper lemmas -/

theorem responseCount_append (a b : List Event) :
    responseCount (a ++ b) = responseCount a + responseCount b := by
  simp [responseCount, List.filter_append]

/-- The rendering middleware either produces exactly one response action and
no escaping error, or no response action and an escaping error. -/
theorem rendering_middleware_response_or_escape (opts : Options) (raw : String)
    (rr : Except Err RenderResult) (ctx : Ctx) :
    responseCount (rendering_middleware opts raw rr ctx).2.1
      + (if (rendering_middleware opts raw rr ctx).2.2.isSome then 1 else 0) = 1 := by
  unfold rendering_middleware
  rcases rr with e | r
  · dsimp only
    rcases hh : opts.error_handler with _ | handler
    · simp [responseCount, Event.isResponse]
    · rcases hc : handler e (normalize_url raw) with e2 | dest <;>
        simp [hc, responseCount, Event.isResponse]
  · dsimp only
    rcases hr : r.redirect with _ | dest
    · simp [hr, responseCount, Event.isResponse]
    · by_cases hd : dest = "" <;> simp [hr, hd, responseCount, Event.isResponse]

/-- The catch block always produces exactly one response action. -/
theorem catch_block_responseCount (dev : Bool) (opts : Options)
    (rst : Err → Except Err StackTraceResult) (e : Err) (ctx : Ctx) :
    responseCount (catch_block dev opts rst e ctx).2 = 1 := by
  unfold catch_block generic_error_response
  cases dev
  · dsimp only
    rw [if_neg (by simp)]
    split <;> simp [responseCount, Event.isResponse]
  · dsimp only
    rw [if_pos rfl]
    rcases hr : rst e with e2 | r
    · simp only [hr]
      split <;> simp [responseCount, Event.isResponse]
    · rcases hb : r.response_body with _ | b
      · simp only [hr, hb]
        split <;> simp [responseCount, Event.isResponse]
      · by_cases hbe : b = ""
        · simp only [hr, hb, hbe, if_pos]
          split <;> simp [responseCount, Event.isResponse]
        · simp [hr, hb, hbe, responseCount, Event.isResponse]

/-! ## C1: exactly one response-producing action per request -/

/-- C1: for every request handled by the pipeline — whatever the development
mode, options, stack-trace renderer and render-callback outcome — exactly one
response-producing action occurs: an HTTP redirect, a content body write, or
an error response write; never more than one and never zero. -/
theorem spec_c1_exactly_one_response_action (dev : Bool) (opts : Options)
    (rst : Err → Except Err StackTraceResult) (rr : Except Err RenderResult)
    (raw : String) :
    responseCount (handle dev opts rst rr raw).2.1 = 1 := by
  have hmain := rendering_middleware_response_or_escape opts raw rr Ctx.init
  unfold handle error_boundary
  rcases hm : rendering_middleware opts raw rr Ctx.init with ⟨c1, evs, esc⟩
  rw [hm] at hmain
  rcases esc with _ | e
  · simp only [Option.isSome_none, Bool.false_eq_true, if_false, add_zero] at hmain
    simp [responseCount_append, responseCount, Event.isResponse]
    simpa [responseCount] using hmain
  · have hcatch := catch_block_responseCount dev opts rst e c1
    rcases hc : catch_block dev opts rst e c1 with ⟨c2, evs2⟩
    rw [hc] at hcatch
    simp only [hc]
    simp [responseCount_append, responseCount, Event.isResponse] at hmain hcatch ⊢
    have h0 : List.filter Event.isResponse evs = [] := by
      rw [List.filter_eq_nil_iff]
      intro a ha
      simpa [Event.isResponse] using hmain a ha
    rw [h0]
    simpa using hcatch

/-- The rendering middleware never touches the duration timers. -/
theorem rendering_middleware_no_timer (opts : Options) (raw : String)
    (rr : Except Err RenderResult) (ctx : Ctx) :
    List.filter Event.isTimer (rendering_middleware opts raw rr ctx).2.1 = [] := by
  unfold rendering_middleware
  rcases rr with e | r
  · dsimp only
    rcases hh : opts.error_handler with _ | handler
    · simp [Event.isTimer]
    · rcases hc : handler e (normalize_url raw) with e2 | dest <;>
        simp [hc, Event.isTimer]
  · dsimp only
    rcases hr : r.redirect with _ | dest
    · simp [hr, Event.isTimer]
    · by_cases hd : dest = "" <;> simp [hr, hd, Event.isTimer]

/-- The catch block never touches the duration timers. -/
theorem catch_block_no_timer (dev : Bool) (opts : Options)
    (rst : Err → Except Err StackTraceResult) (e : Err) (ctx : Ctx) :
    List.filter Event.isTimer (catch_block dev opts rst e ctx).2 = [] := by
  unfold catch_block generic_error_response
  cases dev
  · dsimp only
    rw [if_neg (by simp)]
    split <;> simp [Event.isTimer]
  · dsimp only
    rw [if_pos rfl]
    rcases hr : rst e with e2 | r
    · simp only [hr]
      split <;> simp [Event.isTimer]
    · rcases hb : r.response_body with _ | b
      · simp only [hr, hb]
        split <;> simp [Event.isTimer]
      · by_cases hbe : b = ""
        · simp only [hr, hb, hbe, if_pos]
          split <;> simp [Event.isTimer]
        · simp [hr, hb, hbe, Event.isTimer]

/-! ## C7: timers started before downstream work, stopped exactly once -/

/-- C7: on every request the trace decomposes as: the two request counters
and the two timer starts (emitted before any downstream handler runs),
then the downstream events `mid` — which contain no timer event — then the
two timer stops from the `finally` block.  Consequently the timer events of
the whole request are exactly one start and one stop for the overall
`request` timer and one start and one stop for the per-URL timer, on every
exit path (success, redirect, resolved error, boundary-handled error). -/
theorem spec_c7_timer_discipline (dev : Bool) (opts : Options)
    (rst : Err → Except Err StackTraceResult) (rr : Except Err RenderResult)
    (raw : String) :
    ∃ mid : List Event,
      (handle dev opts rst rr raw).2.1
        = [Event.inc "request.count",
           Event.inc ("request.url.count." ++ normalize_url raw),
           Event.start "request",
           Event.start ("request.url.time." ++ normalize_url raw)]
          ++ mid
          ++ [Event.stop "request",
              Event.stop ("request.url.time." ++ normalize_url raw)]
      ∧ List.filter Event.isTimer mid = []
      ∧ List.filter Event.isTimer (handle dev opts rst rr raw).2.1
          = [Event.start "request",
             Event.start ("request.url.time." ++ normalize_url raw),
             Event.stop "request",
             Event.stop ("request.url.time." ++ normalize_url raw)] := by
  have hrm := rendering_middleware_no_timer opts raw rr Ctx.init
  unfold handle error_boundary
  rcases hm : rendering_middleware opts raw rr Ctx.init with ⟨c1, evs, esc⟩
  rw [hm] at hrm
  dsimp only at hrm
  rcases esc with _ | e
  · refine ⟨evs, by simp, hrm, ?_⟩
    simp [List.filter_append, hrm, Event.isTimer]
  · have hcb := catch_block_no_timer dev opts rst e c1
    rcases hc : catch_block dev opts rst e c1 with ⟨c2, evs2⟩
    rw [hc] at hcb
    dsimp only at hcb
    refine ⟨evs ++ (Event.inc "requests.errors" :: evs2), ?_, ?_, ?_⟩
    · simp [hc]
    · simp [List.filter_append, hrm, hcb, Event.isTimer]
    · simp [hc, List.filter_append, hrm, hcb, Event.isTimer]

/-! ## C9: metrics label key strips a single trailing question mark -/

/-- `replace(/\?$/, '')` removes exactly one trailing `'?'`. -/
theorem normalize_url_strips_one (t : String) : normalize_url (t ++ "?") = t := by
  unfold normalize_url
  have h : (t ++ "?").data.reverse = '?' :: t.data.reverse := by
    rw [String.data_append]
    simp
  split
  · rename_i rest heq
    rw [h] at heq
    cases heq
    cases t
    simp
  · rename_i hne
    exact absurd h (by intro hc; exact hne _ hc)

/-- `replace(/\?$/, '')` leaves a path not ending in `'?'` unchanged. -/
theorem normalize_url_of_no_trailing (s : String)
    (hs : s.data.getLast? ≠ some '?') : normalize_url s = s := by
  unfold normalize_url
  split
  · rename_i rest heq
    exfalso
    apply hs
    rw [← List.head?_reverse, heq]
    rfl
  · rfl

/-- C9: the per-URL metrics label key used by the pipeline is
`normalize_url` of the raw request path, and `normalize_url` removes a single
trailing `'?'` when the path ends in one, leaves a path not ending in `'?'`
unchanged, and removes exactly one `'?'` — a path ending in `"??"` keeps one
trailing `'?'`. -/
theorem spec_c9_metrics_label_key (dev : Bool) (opts : Options)
    (rst : Err → Except Err StackTraceResult) (rr : Except Err RenderResult)
    (raw : String) :
    Event.inc ("request.url.count." ++ normalize_url raw)
        ∈ (handle dev opts rst rr raw).2.1
    ∧ (∀ t : String, normalize_url (t ++ "?") = t)
    ∧ (∀ s : String, s.data.getLast? ≠ some '?' → normalize_url s = s)
    ∧ (∀ t : String, normalize_url (t ++ "??") = t ++ "?") := by
  refine ⟨?_, normalize_url_strips_one, normalize_url_of_no_trailing, ?_⟩
  · unfold handle error_boundary
    rcases hm : rendering_middleware opts raw rr Ctx.init with ⟨c1, evs, esc⟩
    rcases esc with _ | e
    · simp
    · rcases hc : catch_block dev opts rst e c1 with ⟨c2, evs2⟩
      simp [hc]
  · intro t
    rw [show t ++ "??" = (t ++ "?") ++ "?" by rw [String.append_assoc]; rfl,
        normalize_url_strips_one]

/-- Concrete instance of C9: `"/users?"` is labelled `"/users"`, `"/users"`
is unchanged, and `"/a??"` keeps one trailing question mark. -/
theorem spec_c9_metrics_label_key_witness :
    normalize_url ("/users" ++ "?") = "/users"
    ∧ normalize_url "/users" = "/users"
    ∧ normalize_url ("/a" ++ "??") = "/a" ++ "?" := by
  have h := spec_c9_metrics_label_key false ⟨none, false⟩
    (fun _ => .ok ⟨none, none⟩) (.ok ⟨none, "", none⟩) "/users?"
  exact ⟨h.2.1 "/users", h.2.2.1 "/users" (by decide), h.2.2.2 "/a"⟩

/-! ## C5: status/content interpretation of a non-redirect RenderResult -/

/-- C5 counterexample: a RenderResult with the `status` field present and
equal to `0` does not set the response status to `0` — the JavaScript
truthiness test `if (status)` skips it and the status stays at the framework
default. -/
theorem spec_c5_counterexample :
    (handle false ⟨none, false⟩ (fun _ => .ok ⟨none, none⟩)
        (.ok ⟨some 0, "c", none⟩) "/u").1.status ≠ some 0
    ∧ (handle false ⟨none, false⟩ (fun _ => .ok ⟨none, none⟩)
        (.ok ⟨some 0, "c", none⟩) "/u").1.status = none := by
  decide

/-- C5 amended: for every RenderResult without `redirect`, if the `status`
field is present and truthy (nonzero) the response status is set to that
exact value; if `status` is absent — or present but `0`, which JavaScript
treats as falsy — the response status is left at the framework default; in
both cases the response body is set to `content`. -/
theorem spec_c5_amended_status_content (dev : Bool) (opts : Options)
    (rst : Err → Except Err StackTraceResult) (raw : String)
    (r : RenderResult) (hr : r.redirect = none) :
    (handle dev opts rst (.ok r) raw).1.body = some r.content
    ∧ (∀ n, r.status = some n → n ≠ 0 →
        (handle dev opts rst (.ok r) raw).1.status = some n)
    ∧ (r.status = none ∨ r.status = some 0 →
        (handle dev opts rst (.ok r) raw).1.status = none) := by
  rcases hs : r.status with _ | n
  · simp [handle, error_boundary, rendering_middleware, hr, hs, Ctx.init]
  · by_cases hn : n = 0
    · subst hn
      simp [handle, error_boundary, rendering_middleware, hr, hs, Ctx.init]
    · simp [handle, error_boundary, rendering_middleware, hr, hs, hn, Ctx.init]

/-- Concrete instance of the amended C5: `{status: 200, content: c}` sets
status 200 and body `c`; `{content: c}` leaves the status at the default. -/
theorem spec_c5_amended_status_content_witness :
    (handle false ⟨none, false⟩ (fun _ => .ok ⟨none, none⟩)
        (.ok ⟨some 200, "c", none⟩) "/u").1.body = some "c"
    ∧ (handle false ⟨none, false⟩ (fun _ => .ok ⟨none, none⟩)
        (.ok ⟨some 200, "c", none⟩) "/u").1.status = some 200
    ∧ (handle false ⟨none, false⟩ (fun _ => .ok ⟨none, none⟩)
        (.ok ⟨none, "c", none⟩) "/u").1.status = none := by
  refine ⟨(spec_c5_amended_status_content false ⟨none, false⟩
      (fun _ => .ok ⟨none, none⟩) "/u" ⟨some 200, "c", none⟩ rfl).1,
    (spec_c5_amended_status_content false ⟨none, false⟩
      (fun _ => .ok ⟨none, none⟩) "/u" ⟨some 200, "c", none⟩ rfl).2.1 200 rfl
      (by decide),
    (spec_c5_amended_status_content false ⟨none, false⟩
      (fun _ => .ok ⟨none, none⟩) "/u" ⟨none, "c", none⟩ rfl).2.2 (Or.inl rfl)⟩

/-! ## C6: redirect interpretation of a RenderResult -/

/-- C6 counterexample: a RenderResult whose `redirect` field is present but
equal to the empty string does not produce a redirect — the JavaScript
truthiness test `if (redirect)` is false for `""`, so the pipeline falls
through and writes the content body instead. -/
theorem spec_c6_counterexample :
    (handle false ⟨none, false⟩ (fun _ => .ok ⟨none, none⟩)
        (.ok ⟨none, "c", some ""⟩) "/u").1.redirectedTo = none
    ∧ (handle false ⟨none, false⟩ (fun _ => .ok ⟨none, none⟩)
        (.ok ⟨none, "c", some ""⟩) "/u").1.body = some "c" := by
  decide

/-- C6 amended: for every RenderResult containing a truthy (non-empty)
`redirect`, the pipeline performs an HTTP redirect to exactly that URL and
short-circuits: the response status is not set from the result, no content
body is written, and no `ctx.body = content` assignment occurs anywhere in
the request. -/
theorem spec_c6_amended_redirect (dev : Bool) (opts : Options)
    (rst : Err → Except Err StackTraceResult) (raw : String)
    (r : RenderResult) (dest : String) (hr : r.redirect = some dest)
    (hd : dest ≠ "") :
    (handle dev opts rst (.ok r) raw).1.redirectedTo = some dest
    ∧ (handle dev opts rst (.ok r) raw).1.status = none
    ∧ (handle dev opts rst (.ok r) raw).1.body = none
    ∧ ∀ s, Event.writeBody s ∉ (handle dev opts rst (.ok r) raw).2.1 := by
  simp [handle, error_boundary, rendering_middleware, hr, hd, Ctx.init]

/-- Concrete instance of the amended C6: `{redirect: "/new-page"}` redirects
to `/new-page` with no status and no body. -/
theorem spec_c6_amended_redirect_witness :
    (handle false ⟨none, false⟩ (fun _ => .ok ⟨none, none⟩)
        (.ok ⟨none, "", some "/new-page"⟩) "/old-page").1.redirectedTo
      = some "/new-page"
    ∧ (handle false ⟨none, false⟩ (fun _ => .ok ⟨none, none⟩)
        (.ok ⟨none, "", some "/new-page"⟩) "/old-page").1.body = none := by
  have h := spec_c6_amended_redirect false ⟨none, false⟩
    (fun _ => .ok ⟨none, none⟩) "/old-page" ⟨none, "", some "/new-page"⟩
    "/new-page" rfl (by decide)
  exact ⟨h.1, h.2.2.1⟩

/-! ## C2: render-callback rejection -/

/-- Two strings differ when the first is a strictly longer prefix-append. -/
theorem append_ne_of_length_lt (a u b : String) (h : b.length < a.length) :
    a ++ u ≠ b := by
  intro hc
  have hl := congrArg String.length hc
  rw [String.length_append] at hl
  omega

/-- C2: when the render callback rejects with error `e`, the handled-error
metric is incremented; if an error handler is configured and it resolves the
error by redirecting, that redirect is the response and the outer boundary's
catch block is never reached for that error (its error counter is not
incremented); if no error handler is configured, exactly `e` escapes the
rendering middleware and the outer boundary's catch block runs. -/
theorem spec_c2_render_rejection (dev : Bool) (opts : Options)
    (rst : Err → Except Err StackTraceResult) (e : Err) (raw : String) :
    Event.inc "requests.errors.handled" ∈ (handle dev opts rst (.error e) raw).2.1
    ∧ (∀ handler dest, opts.error_handler = some handler →
        handler e (normalize_url raw) = .ok dest →
        (handle dev opts rst (.error e) raw).1.redirectedTo = some dest
        ∧ Event.inc "requests.errors" ∉ (handle dev opts rst (.error e) raw).2.1)
    ∧ (opts.error_handler = none →
        (rendering_middleware opts raw (.error e) Ctx.init).2.2 = some e
        ∧ Event.inc "requests.errors" ∈ (handle dev opts rst (.error e) raw).2.1) := by
  have hne1 : ("request.url.count." ++ normalize_url raw) ≠ "requests.errors" :=
    append_ne_of_length_lt _ _ _ (by decide)
  have hne2 : ("request.url.hits." ++ normalize_url raw) ≠ "requests.errors" :=
    append_ne_of_length_lt _ _ _ (by decide)
  refine ⟨?_, ?_, ?_⟩
  · unfold handle error_boundary rendering_middleware
    rcases hh : opts.error_handler with _ | handler
    · simp
    · rcases hc : handler e (normalize_url raw) with e2 | dest
      · rcases hcb : catch_block dev opts rst e2 Ctx.init with ⟨c2, evs2⟩
        simp [hc, hcb]
      · simp [hc]
  · intro handler dest hh hc
    unfold handle error_boundary rendering_middleware
    simp [hh, hc]
    exact ⟨Ne.symm hne1, Ne.symm hne2⟩
  · intro hh
    constructor
    · unfold rendering_middleware
      simp [hh]
    · unfold handle error_boundary rendering_middleware
      rcases hcb : catch_block dev opts rst e Ctx.init with ⟨c2, evs2⟩
      simp [hh, hcb]

/-- Concrete instance of C2: with a handler that redirects to `"/error"`,
the response is that redirect and the boundary's error counter stays
untouched; without a handler, the error itself escapes the middleware. -/
theorem spec_c2_render_rejection_witness :
    (handle false ⟨some (fun _ _ => .ok "/error"), false⟩
        (fun _ => .ok ⟨none, none⟩)
        (.error ⟨none, "boom", ""⟩) "/x").1.redirectedTo = some "/error"
    ∧ (rendering_middleware ⟨none, false⟩ "/x"
        (.error ⟨none, "boom", ""⟩) Ctx.init).2.2 = some ⟨none, "boom", ""⟩ := by
  refine ⟨((spec_c2_render_rejection false ⟨some (fun _ _ => .ok "/error"), false⟩
      (fun _ => .ok ⟨none, none⟩) ⟨none, "boom", ""⟩ "/x").2.1
      (fun _ _ => .ok "/error") "/error" rfl rfl).1,
    ((spec_c2_render_rejection false ⟨none, false⟩
      (fun _ => .ok ⟨none, none⟩) ⟨none, "boom", ""⟩ "/x").2.2 rfl).1⟩

/-! ## C4: generic error response in non-development mode -/

/-- When an error escapes the rendering middleware, the middleware has not
touched the response context. -/
theorem rendering_middleware_escape_ctx (opts : Options) (raw : String)
    (rr : Except Err RenderResult) (ctx : Ctx) (e' : Err)
    (hesc : (rendering_middleware opts raw rr ctx).2.2 = some e') :
    (rendering_middleware opts raw rr ctx).1 = ctx := by
  unfold rendering_middleware at hesc ⊢
  rcases rr with e | r
  · rcases hh : opts.error_handler with _ | handler
    · simp [hh]
    · rcases hc : handler e (normalize_url raw) with e2 | dest
      · simp [hh, hc]
      · simp [hh, hc] at hesc
  · rcases hr : r.redirect with _ | dest
    · simp [hr] at hesc
    · by_cases hd : dest = "" <;> simp [hr, hd] at hesc

/-- The rendering middleware never invokes the diagnostic stack-trace
renderer. -/
theorem rendering_middleware_no_stack_attempt (opts : Options) (raw : String)
    (rr : Except Err RenderResult) (ctx : Ctx) :
    Event.stackTraceAttempt ∉ (rendering_middleware opts raw rr ctx).2.1 := by
  unfold rendering_middleware
  rcases rr with e | r
  · rcases hh : opts.error_handler with _ | handler
    · simp
    · rcases hc : handler e (normalize_url raw) with e2 | dest <;> simp [hc]
  · rcases hr : r.redirect with _ | dest
    · simp [hr]
    · by_cases hd : dest = "" <;> simp [hr, hd]

/-- C4: in non-development mode, for every error `e'` that reaches the outer
boundary (escapes the rendering middleware), the response status is the
error's numeric `status` field when present and 500 otherwise, the pipeline
writes no body — so the observable response body is the status message,
which equals the error's message, or `"Internal error"` when the message is
empty — and the diagnostic stack-trace renderer is never invoked. -/
theorem spec_c4_production_error_response (opts : Options)
    (rst : Err → Except Err StackTraceResult) (rr : Except Err RenderResult)
    (raw : String) (e' : Err)
    (hesc : (rendering_middleware opts raw rr Ctx.init).2.2 = some e') :
    (∀ n, e'.status = some n → (handle false opts rst rr raw).1.status = some n)
    ∧ (e'.status = none → (handle false opts rst rr raw).1.status = some 500)
    ∧ (handle false opts rst rr raw).1.body = none
    ∧ (e'.message ≠ "" →
        Ctx.responseBody (handle false opts rst rr raw).1 = some e'.message)
    ∧ (e'.message = "" →
        Ctx.responseBody (handle false opts rst rr raw).1 = some "Internal error")
    ∧ Event.stackTraceAttempt ∉ (handle false opts rst rr raw).2.1 := by
  have hctx := rendering_middleware_escape_ctx opts raw rr Ctx.init e' hesc
  have hst := rendering_middleware_no_stack_attempt opts raw rr Ctx.init
  unfold handle error_boundary
  rcases hm : rendering_middleware opts raw rr Ctx.init with ⟨c1, evs, esc⟩
  rw [hm] at hesc hctx hst
  dsimp only at hesc hctx hst
  subst hesc
  subst hctx
  have hcb : catch_block false opts rst e' Ctx.init
      = generic_error_response opts e' Ctx.init := by
    unfold catch_block
    rw [if_neg (by simp)]
  dsimp only
  rw [hcb]
  unfold generic_error_response
  rcases hs : e'.status with _ | n <;>
    by_cases hm' : e'.message = "" <;>
      simp [hs, hm', Ctx.responseBody, Ctx.init, hst]

/-- Concrete instance of C4 (spec example 3): render rejects with
`{status: 403, message: "Forbidden"}`, no handler, production mode →
status 403 and response body `"Forbidden"`. -/
theorem spec_c4_production_error_response_witness :
    (handle false ⟨none, false⟩ (fun _ => .ok ⟨none, none⟩)
        (.error ⟨some 403, "Forbidden", "st"⟩) "/secure").1.status = some 403
    ∧ Ctx.responseBody (handle false ⟨none, false⟩ (fun _ => .ok ⟨none, none⟩)
        (.error ⟨some 403, "Forbidden", "st"⟩) "/secure").1
      = some "Forbidden" := by
  have h := spec_c4_production_error_response ⟨none, false⟩
    (fun _ => .ok ⟨none, none⟩) (.error ⟨some 403, "Forbidden", "st"⟩)
    "/secure" ⟨some 403, "Forbidden", "st"⟩ (by decide)
  exact ⟨h.1 403 rfl, h.2.2.2.1 (by decide)⟩

/-! ## C3: development-mode diagnostic response -/

/-- C3 counterexample: in development mode, an error carrying `status: 403`
whose diagnostic rendering succeeds with a body but no `response_status`
gets response status 500, not the error's own 403 — the outer boundary
computes `response_status || 500` and never consults `error.status` on this
path. -/
theorem spec_c3_counterexample :
    (handle true ⟨none, false⟩
        (fun _ => .ok ⟨none, some "<html>trace</html>"⟩)
        (.error ⟨some 403, "Forbidden", "st"⟩) "/secure").1.status ≠ some 403
    ∧ (handle true ⟨none, false⟩
        (fun _ => .ok ⟨none, some "<html>trace</html>"⟩)
        (.error ⟨some 403, "Forbidden", "st"⟩) "/secure").1.status = some 500
    ∧ (handle true ⟨none, false⟩
        (fun _ => .ok ⟨none, some "<html>trace</html>"⟩)
        (.error ⟨some 403, "Forbidden", "st"⟩) "/secure").1.body
      = some "<html>trace</html>" := by
  decide

/-- C3 amended: in development mode, when an error `e'` reaches the outer
boundary and the diagnostic stack-trace renderer produces a truthy
(non-empty) body, the response is that HTML body with Content-Type html, and
the response status is the diagnostic renderer's status when present and
nonzero, else 500 — the error's own `status` field is not consulted on this
path. -/
theorem spec_c3_amended_diagnostic_response (opts : Options)
    (rst : Err → Except Err StackTraceResult) (rr : Except Err RenderResult)
    (raw : String) (e' : Err) (rs : Option Nat) (b : String)
    (hesc : (rendering_middleware opts raw rr Ctx.init).2.2 = some e')
    (hr : rst e' = .ok ⟨rs, some b⟩) (hb : b ≠ "") :
    (handle true opts rst rr raw).1.body = some b
    ∧ (handle true opts rst rr raw).1.ctype = some "html"
    ∧ (∀ n, rs = some n → n ≠ 0 → (handle true opts rst rr raw).1.status = some n)
    ∧ (rs = none → (handle true opts rst rr raw).1.status = some 500)
    ∧ (rs = some 0 → (handle true opts rst rr raw).1.status = some 500) := by
  have hctx := rendering_middleware_escape_ctx opts raw rr Ctx.init e' hesc
  unfold handle error_boundary
  rcases hm : rendering_middleware opts raw rr Ctx.init with ⟨c1, evs, esc⟩
  rw [hm] at hesc hctx
  dsimp only at hesc hctx
  subst hesc
  subst hctx
  dsimp only
  unfold catch_block
  rw [if_pos rfl, hr]
  dsimp only
  rw [if_neg hb]
  rcases rs with _ | n
  · simp [status_or_500]
  · by_cases hn : n = 0 <;> simp [status_or_500, hn]

/-- Concrete instance of the amended C3: renderer body with no status →
HTML response with status 500 (spec example 4, success case). -/
theorem spec_c3_amended_diagnostic_response_witness :
    (handle true ⟨none, false⟩
        (fun _ => .ok ⟨none, some "<html>trace</html>"⟩)
        (.error ⟨some 403, "Forbidden", "st"⟩) "/secure").1.ctype = some "html"
    ∧ (handle true ⟨none, false⟩
        (fun _ => .ok ⟨none, some "<html>trace</html>"⟩)
        (.error ⟨some 403, "Forbidden", "st"⟩) "/secure").1.status
      = some 500 := by
  have h := spec_c3_amended_diagnostic_response ⟨none, false⟩
    (fun _ => .ok ⟨none, some "<html>trace</html>"⟩)
    (.error ⟨some 403, "Forbidden", "st"⟩) "/secure"
    ⟨some 403, "Forbidden", "st"⟩ none "<html>trace</html>"
    (by decide) rfl (by decide)
  exact ⟨h.2.1, h.2.2.2.1 rfl⟩

/-! ## C8: failure of the diagnostic stack-trace renderer -/

/-- C8: in development mode, when an error `e'` reaches the outer boundary
and the diagnostic stack-trace renderer itself throws `e2`, the thrown error
is caught locally and logged to the process console, the pipeline falls
through to the generic error response derived from the original error `e'`
(status from `e'.status` or 500, message from `e'.message`), no diagnostic
body is written, and no error escapes the outer boundary. -/
theorem spec_c8_diagnostic_failure_recovered (opts : Options)
    (rst : Err → Except Err StackTraceResult) (rr : Except Err RenderResult)
    (raw : String) (e' e2 : Err)
    (hesc : (rendering_middleware opts raw rr Ctx.init).2.2 = some e')
    (hr : rst e' = .error e2) :
    Event.consoleLog "(couldn't render error stack trace)"
        ∈ (handle true opts rst rr raw).2.1
    ∧ Event.consoleLogError e2 ∈ (handle true opts rst rr raw).2.1
    ∧ (∀ n, e'.status = some n → (handle true opts rst rr raw).1.status = some n)
    ∧ (e'.status = none → (handle true opts rst rr raw).1.status = some 500)
    ∧ Ctx.responseBody (handle true opts rst rr raw).1
        = some (if e'.message = "" then "Internal error" else e'.message)
    ∧ (handle true opts rst rr raw).1.body = none
    ∧ (handle true opts rst rr raw).2.2 = none := by
  have hctx := rendering_middleware_escape_ctx opts raw rr Ctx.init e' hesc
  unfold handle error_boundary
  rcases hm : rendering_middleware opts raw rr Ctx.init with ⟨c1, evs, esc⟩
  rw [hm] at hesc hctx
  dsimp only at hesc hctx
  subst hesc
  subst hctx
  dsimp only
  unfold catch_block
  rw [if_pos rfl, hr]
  unfold generic_error_response
  rcases hs : e'.status with _ | n <;>
    simp [hs, Ctx.responseBody, Ctx.init]

/-- Concrete instance of C8 (spec example 4, fallback case): the renderer
rethrows, the request still gets status 403 / "Forbidden" from the original
error and nothing escapes. -/
theorem spec_c8_diagnostic_failure_recovered_witness :
    (handle true ⟨none, false⟩ (fun e => .error e)
        (.error ⟨some 403, "Forbidden", "st"⟩) "/secure").1.status = some 403
    ∧ Ctx.responseBody (handle true ⟨none, false⟩ (fun e => .error e)
        (.error ⟨some 403, "Forbidden", "st"⟩) "/secure").1 = some "Forbidden"
    ∧ (handle true ⟨none, false⟩ (fun e => .error e)
        (.error ⟨some 403, "Forbidden", "st"⟩) "/secure").2.2 = none := by
  have h := spec_c8_diagnostic_failure_recovered ⟨none, false⟩
    (fun e => .error e) (.error ⟨some 403, "Forbidden", "st"⟩) "/secure"
    ⟨some 403, "Forbidden", "st"⟩ ⟨some 403, "Forbidden", "st"⟩
    (by decide) rfl
  refine ⟨h.2.2.1 403 rfl, ?_, h.2.2.2.2.2.2⟩
  have hm := h.2.2.2.2.1
  simpa using hm

/-! ## C10: development mode is NODE_ENV ≠ 'production' -/

/-- In development mode the catch block always attempts the diagnostic
stack-trace renderer. -/
theorem catch_block_dev_attempts_stack_trace (opts : Options)
    (rst : Err → Except Err StackTraceResult) (e : Err) (ctx : Ctx) :
    Event.stackTraceAttempt ∈ (catch_block true opts rst e ctx).2 := by
  unfold catch_block generic_error_response
  rw [if_pos rfl]
  rcases hr : rst e with e2 | r
  · simp [hr]
  · rcases hb : r.response_body with _ | b
    · simp [hr, hb]
    · by_cases hbe : b = "" <;> simp [hr, hb, hbe]

/-- Outside development mode the catch block never attempts the diagnostic
stack-trace renderer. -/
theorem catch_block_prod_no_stack_trace (opts : Options)
    (rst : Err → Except Err StackTraceResult) (e : Err) (ctx : Ctx) :
    Event.stackTraceAttempt ∉ (catch_block false opts rst e ctx).2 := by
  unfold catch_block generic_error_response
  rw [if_neg (by simp)]
  by_cases hl : opts.log <;> simp [hl]

/-- C10: development mode is `NODE_ENV !== 'production'`, computed once at
server start: it holds when `NODE_ENV` is unset and under every value other
than the exact string `"production"`; under every such value the diagnostic
stack-trace path is attempted for any error reaching the outer boundary, and
only `NODE_ENV = "production"` guarantees the stack-trace renderer is never
invoked. -/
theorem spec_c10_development_mode_semantics :
    development_mode none = true
    ∧ (∀ s : String, s ≠ "production" → development_mode (some s) = true)
    ∧ development_mode (some "production") = false
    ∧ (∀ node_env opts rst rr raw e',
        development_mode node_env = true →
        (rendering_middleware opts raw rr Ctx.init).2.2 = some e' →
        Event.stackTraceAttempt
          ∈ (start_webpage_rendering_server node_env opts rst rr raw).2.1)
    ∧ (∀ opts rst rr raw,
        Event.stackTraceAttempt
          ∉ (start_webpage_rendering_server (some "production")
              opts rst rr raw).2.1) := by
  refine ⟨by simp [development_mode], ?_, by simp [development_mode], ?_, ?_⟩
  · intro s hs
    simp [development_mode, hs]
  · intro node_env opts rst rr raw e' hdev hesc
    unfold start_webpage_rendering_server
    rw [hdev]
    have hca := catch_block_dev_attempts_stack_trace opts rst e'
    unfold handle error_boundary
    rcases hm : rendering_middleware opts raw rr Ctx.init with ⟨c1, evs, esc⟩
    rw [hm] at hesc
    dsimp only at hesc
    subst hesc
    rcases hcb : catch_block true opts rst e' c1 with ⟨c2, evs2⟩
    have := hca c1
    rw [hcb] at this
    simp [hcb]
    simp at this
    tauto
  · intro opts rst rr raw
    unfold start_webpage_rendering_server
    have hdev : development_mode (some "production") = false := by
      simp [development_mode]
    rw [hdev]
    have hin := rendering_middleware_no_stack_attempt opts raw rr Ctx.init
    unfold handle error_boundary
    rcases hm : rendering_middleware opts raw rr Ctx.init with ⟨c1, evs, esc⟩
    rw [hm] at hin
    dsimp only at hin
    rcases esc with _ | e
    · simp [hin]
    · have hcp := catch_block_prod_no_stack_trace opts rst e c1
      rcases hcb : catch_block false opts rst e c1 with ⟨c2, evs2⟩
      rw [hcb] at hcp
      dsimp only at hcp
      simp [hcb, hin, hcp]

/-- Concrete instance of C10: `NODE_ENV=development` is development mode and
an erroring request attempts the stack-trace renderer. -/
theorem spec_c10_development_mode_semantics_witness :
    development_mode (some "development") = true
    ∧ Event.stackTraceAttempt
        ∈ (start_webpage_rendering_server (some "development") ⟨none, false⟩
            (fun _ => .ok ⟨none, none⟩)
            (.error ⟨none, "boom", ""⟩) "/x").2.1 := by
  have h := spec_c10_development_mode_semantics
  exact ⟨h.2.1 "development" (by decide),
    h.2.2.2.1 (some "development") ⟨none, false⟩ (fun _ => .ok ⟨none, none⟩)
      (.error ⟨none, "boom", ""⟩) "/x" ⟨none, "boom", ""⟩ (by decide) (by decide)⟩
